import Mathlib

/-!
Shallow embedding of the Win32 serial backend of libdivecomputer
(src/serial_win32.c) together with proofs of properties of its
configuration, timeout, read/write, half-duplex timing, close and
enumeration logic.

Operating-system calls (GetCommState, SetCommState, ReadFile, WriteFile,
QueryPerformanceCounter, registry access, ...) are modelled as oracle
inputs of type `Except errcode result`: an `Except.error e` value means
the call fails and a subsequent `GetLastError ()` returns `e`, while
`Except.ok v` means the call succeeds producing `v`.  The C control flow
of each backend function is then translated branch for branch.
-/

namespace LibDC

/-- The portable status codes `dc_status_t` (from libdivecomputer's
`common.h`) that appear in serial_win32.c, modelled as an inductive type. -/
inductive dc_status_t where
  | success
  | unsupported
  | invalidargs
  | nomemory
  | nodevice
  | noaccess
  | ioerror
  | timeout
  deriving DecidableEq, Repr

/-- Windows error code `ERROR_FILE_NOT_FOUND` (winerror.h). -/
def ERROR_FILE_NOT_FOUND : Nat := 2

/-- Windows error code `ERROR_ACCESS_DENIED` (winerror.h). -/
def ERROR_ACCESS_DENIED : Nat := 5

/-- Windows error code `ERROR_OUTOFMEMORY` (winerror.h). -/
def ERROR_OUTOFMEMORY : Nat := 14

/-- Windows error code `ERROR_INVALID_PARAMETER` (winerror.h). -/
def ERROR_INVALID_PARAMETER : Nat := 87

/-- Windows constant `MAXDWORD` (0xFFFFFFFF). -/
def MAXDWORD : Nat := 4294967295

/-- Windows registry value type `REG_SZ` (winnt.h). -/
def REG_SZ : Nat := 1

/-- Embedding of `syserror` (serial_win32.c lines 87-102): the fixed translation of a
Windows error code into the portable status taxonomy. -/
def syserror (errcode : Nat) : dc_status_t :=
  if errcode = ERROR_INVALID_PARAMETER then dc_status_t.invalidargs
  else if errcode = ERROR_OUTOFMEMORY then dc_status_t.nomemory
  else if errcode = ERROR_FILE_NOT_FOUND then dc_status_t.nodevice
  else if errcode = ERROR_ACCESS_DENIED then dc_status_t.noaccess
  else dc_status_t.ioerror

/-- The parity selections of `dc_parity_t` (declared in libdivecomputer's
`iostream.h`); `DC_PARITY_NONE` is the first (hence zero-valued)
enumerator, which is what the test `(parity ? 1 : 0)` at
serial_win32.c line 359 relies on. -/
inductive dc_parity_t where
  | none
  | odd
  | even
  | mark
  | space
  deriving DecidableEq, Repr

/-- The truth value of a `dc_parity_t` used as a C condition
(`parity ? 1 : 0`): zero exactly for `DC_PARITY_NONE`, the first
enumerator. -/
def parityBit (parity : dc_parity_t) : Nat :=
  if parity = dc_parity_t.none then 0 else 1

/-- The stop-bit selections of `dc_stopbits_t`. -/
inductive dc_stopbits_t where
  | one
  | onepointfive
  | two
  deriving DecidableEq, Repr

/-- Modelled from the spec: the `dc_stopbits_t` enumeration is declared in
a header (`iostream.h`) that is not under src/.  The spec lists its
members in the order one, one-and-a-half, two; as a C enumeration
without explicit initializers the members take the default ordinal
values 0, 1, 2 in that order, and this ordinal is the integer the
source adds in `1 + databits + stopbits + (parity ? 1 : 0)` at
serial_win32.c line 359. -/
def stopbitsVal (stopbits : dc_stopbits_t) : Nat :=
  match stopbits with
  | dc_stopbits_t.one => 0
  | dc_stopbits_t.onepointfive => 1
  | dc_stopbits_t.two => 2

/-- The flow-control selections of `dc_flowcontrol_t`. -/
inductive dc_flowcontrol_t where
  | none
  | hardware
  | software
  deriving DecidableEq, Repr

/-- The fields of the Windows `DCB` structure that serial_win32.c touches.
The parity, stop-bit and DTR/RTS fields hold the numeric Windows
constants (NOPARITY = 0, ODDPARITY = 1, EVENPARITY = 2, MARKPARITY = 3,
SPACEPARITY = 4; ONESTOPBIT = 0, ONE5STOPBITS = 1, TWOSTOPBITS = 2;
DTR_CONTROL_ENABLE = 1, DTR_CONTROL_HANDSHAKE = 2, RTS_CONTROL_ENABLE = 1,
RTS_CONTROL_HANDSHAKE = 2). -/
structure DCB where
  fBinary : Bool
  fAbortOnError : Bool
  BaudRate : Nat
  ByteSize : Nat
  Parity : Nat
  fParity : Bool
  StopBits : Nat
  fInX : Bool
  fOutX : Bool
  fOutxCtsFlow : Bool
  fOutxDsrFlow : Bool
  fDtrControl : Nat
  fRtsControl : Nat
  deriving DecidableEq, Repr

/-- The Windows `COMMTIMEOUTS` structure. -/
structure COMMTIMEOUTS where
  ReadIntervalTimeout : Nat
  ReadTotalTimeoutMultiplier : Nat
  ReadTotalTimeoutConstant : Nat
  WriteTotalTimeoutMultiplier : Nat
  WriteTotalTimeoutConstant : Nat
  deriving DecidableEq, Repr

/-- The serial session state `dc_serial_t` (serial_win32.c lines 49-66),
without the opaque OS handle: the configuration/timeout snapshot taken
at open, the half-duplex flag (a C `int`, tested for being nonzero),
and the recorded baud rate and bit-time count. -/
structure dc_serial_t where
  dcb : DCB
  timeouts : COMMTIMEOUTS
  halfduplex : Nat
  baudrate : Nat
  nbits : Nat
  deriving DecidableEq, Repr

/-- Oracle results for the OS calls made by `dc_serial_open` after the
device name has been resolved. -/
structure OpenEnv where
  createFile : Except Nat Unit
  getCommState : Except Nat DCB
  getCommTimeouts : Except Nat COMMTIMEOUTS

/-- Embedding of `dc_serial_open` (serial_win32.c lines 158-229), restricted to the
session-state initialisation: the defaults are full duplex with zero
baud rate and zero bit-time count (lines 190-192), and the current
port configuration and timeouts are captured as the restore snapshot
(lines 212-213).  The device-path prefixing and the allocation of the
handle itself have no effect on the session state and are not
modelled. -/
def dc_serial_open (env : OpenEnv) : Except dc_status_t dc_serial_t :=
  match env.createFile with
  | Except.error errcode => Except.error (syserror errcode)
  | Except.ok _ =>
    match env.getCommState with
    | Except.error errcode => Except.error (syserror errcode)
    | Except.ok dcb =>
      match env.getCommTimeouts with
      | Except.error errcode => Except.error (syserror errcode)
      | Except.ok timeouts =>
        Except.ok { dcb := dcb, timeouts := timeouts,
                    halfduplex := 0, baudrate := 0, nbits := 0 }

/-- Modelled from the spec: `dc_status_set_error` is defined in
`iostream-private.h`, which is not under src/.  Per the spec, close
accumulates the first encountered error and continues, so the helper
records an error only when the running status is still success. -/
def dc_status_set_error (status error : dc_status_t) : dc_status_t :=
  if status = dc_status_t.success then error else status

/-- The observable OS steps of `dc_serial_close`, used to record which
cleanup calls were attempted. -/
inductive CloseStep where
  | setState
  | setTimeouts
  | handleClose
  deriving DecidableEq, Repr

/-- Oracle results for the OS calls made by `dc_serial_close`. -/
structure CloseEnv where
  setCommState : Except Nat Unit
  setCommTimeouts : Except Nat Unit
  closeHandle : Except Nat Unit

/-- Embedding of `dc_serial_close` (serial_win32.c lines 231-253): attempt to restore
the snapshot (`SetCommState` and, if that succeeded, `SetCommTimeouts`
— the C `||` short-circuits), recording a failure without stopping;
then always call `CloseHandle`, again folding a failure into the status
through `dc_status_set_error`.  The returned list is the sequence of OS
calls attempted. -/
def dc_serial_close (env : CloseEnv) : dc_status_t × List CloseStep :=
  let restore : dc_status_t × List CloseStep :=
    match env.setCommState with
    | Except.error errcode =>
        (dc_status_set_error dc_status_t.success (syserror errcode),
         [CloseStep.setState])
    | Except.ok _ =>
      match env.setCommTimeouts with
      | Except.error errcode =>
          (dc_status_set_error dc_status_t.success (syserror errcode),
           [CloseStep.setState, CloseStep.setTimeouts])
      | Except.ok _ =>
          (dc_status_t.success, [CloseStep.setState, CloseStep.setTimeouts])
  match env.closeHandle with
  | Except.error errcode =>
      (dc_status_set_error restore.1 (syserror errcode),
       restore.2 ++ [CloseStep.handleClose])
  | Except.ok _ => (restore.1, restore.2 ++ [CloseStep.handleClose])

/-- The parity switch of `dc_serial_configure` (serial_win32.c lines
280-304): set the Windows parity constant and the parity-enable flag. -/
def applyParity (dcb : DCB) (parity : dc_parity_t) : DCB :=
  match parity with
  | dc_parity_t.none => { dcb with Parity := 0, fParity := false }
  | dc_parity_t.even => { dcb with Parity := 2, fParity := true }
  | dc_parity_t.odd => { dcb with Parity := 1, fParity := true }
  | dc_parity_t.mark => { dcb with Parity := 3, fParity := true }
  | dc_parity_t.space => { dcb with Parity := 4, fParity := true }

/-- The stop-bit switch of `dc_serial_configure` (serial_win32.c lines
306-319): set the Windows stop-bit constant. -/
def applyStopbits (dcb : DCB) (stopbits : dc_stopbits_t) : DCB :=
  match stopbits with
  | dc_stopbits_t.one => { dcb with StopBits := 0 }
  | dc_stopbits_t.onepointfive => { dcb with StopBits := 1 }
  | dc_stopbits_t.two => { dcb with StopBits := 2 }

/-- The flow-control switch of `dc_serial_configure` (serial_win32.c lines
321-349). -/
def applyFlowcontrol (dcb : DCB) (flowcontrol : dc_flowcontrol_t) : DCB :=
  match flowcontrol with
  | dc_flowcontrol_t.none =>
      { dcb with fInX := false, fOutX := false,
                 fOutxCtsFlow := false, fOutxDsrFlow := false,
                 fDtrControl := 1, fRtsControl := 1 }
  | dc_flowcontrol_t.hardware =>
      { dcb with fInX := false, fOutX := false,
                 fOutxCtsFlow := true, fOutxDsrFlow := true,
                 fDtrControl := 2, fRtsControl := 2 }
  | dc_flowcontrol_t.software =>
      { dcb with fInX := true, fOutX := true,
                 fOutxCtsFlow := false, fOutxDsrFlow := false,
                 fDtrControl := 1, fRtsControl := 1 }

/-- Embedding of `dc_serial_configure` (serial_win32.c lines 255-362).  The oracles
model `GetCommState` and `SetCommState`.  Result: the returned status,
the session state afterwards, and the `DCB` handed to `SetCommState`
(`Option.none` when `SetCommState` was never called).  The session
fields `baudrate` and `nbits` are updated only after `SetCommState`
succeeded (lines 358-359). -/
def dc_serial_configure (getState : Except Nat DCB)
    (setState : DCB → Except Nat Unit) (device : dc_serial_t)
    (baudrate databits : Nat) (parity : dc_parity_t)
    (stopbits : dc_stopbits_t) (flowcontrol : dc_flowcontrol_t) :
    dc_status_t × dc_serial_t × Option DCB :=
  match getState with
  | Except.error errcode => (syserror errcode, device, Option.none)
  | Except.ok dcb0 =>
    let dcb1 := { dcb0 with fBinary := true, fAbortOnError := false,
                            BaudRate := baudrate }
    if 5 ≤ databits ∧ databits ≤ 8 then
      let dcb2 := { dcb1 with ByteSize := databits }
      let dcb3 := applyParity dcb2 parity
      let dcb4 := applyStopbits dcb3 stopbits
      let dcb5 := applyFlowcontrol dcb4 flowcontrol
      match setState dcb5 with
      | Except.error errcode => (syserror errcode, device, Option.none)
      | Except.ok _ =>
          (dc_status_t.success,
           { device with baudrate := baudrate,
                         nbits := 1 + databits + stopbitsVal stopbits
                                    + parityBit parity },
           Option.some dcb5)
    else
      (dc_status_t.invalidargs, device, Option.none)

/-- Embedding of `dc_serial_set_timeout` (serial_win32.c lines 364-409).  All five
`COMMTIMEOUTS` fields are overwritten according to the sign of the
timeout; the result carries the timeouts handed to `SetCommTimeouts`
(`Option.none` when it was never called). -/
def dc_serial_set_timeout (getTimeouts : Except Nat COMMTIMEOUTS)
    (setTimeouts : COMMTIMEOUTS → Except Nat Unit) (timeout : Int) :
    dc_status_t × Option COMMTIMEOUTS :=
  match getTimeouts with
  | Except.error errcode => (syserror errcode, Option.none)
  | Except.ok _ =>
    let updated : COMMTIMEOUTS :=
      if timeout < 0 then
        { ReadIntervalTimeout := 0, ReadTotalTimeoutMultiplier := 0,
          ReadTotalTimeoutConstant := 0, WriteTotalTimeoutMultiplier := 0,
          WriteTotalTimeoutConstant := 0 }
      else if timeout = 0 then
        { ReadIntervalTimeout := MAXDWORD, ReadTotalTimeoutMultiplier := 0,
          ReadTotalTimeoutConstant := 0, WriteTotalTimeoutMultiplier := 0,
          WriteTotalTimeoutConstant := 0 }
      else
        { ReadIntervalTimeout := 0, ReadTotalTimeoutMultiplier := 0,
          ReadTotalTimeoutConstant := timeout.toNat,
          WriteTotalTimeoutMultiplier := 0,
          WriteTotalTimeoutConstant := 0 }
    match setTimeouts updated with
    | Except.error errcode => (syserror errcode, Option.none)
    | Except.ok _ => (dc_status_t.success, Option.some updated)

/-- Embedding of `dc_serial_set_halfduplex` (serial_win32.c lines 411-419). -/
def dc_serial_set_halfduplex (device : dc_serial_t) (value : Nat) :
    dc_status_t × dc_serial_t :=
  (dc_status_t.success, { device with halfduplex := value })

/-- Embedding of `dc_serial_read` (serial_win32.c lines 427-450).  The oracle is the
`ReadFile` outcome: on success it yields the transferred byte count
`dwRead`; on failure `dwRead` stays at its initial value 0 (`ReadFile`
zeroes the output count before doing any work).  `actualNull` models a
null `actual` pointer; the second component is the value stored through
`actual`, `Option.none` when the pointer is null. -/
def dc_serial_read (readFileRes : Except Nat Nat) (size : Nat)
    (actualNull : Bool) : dc_status_t × Option Nat :=
  match readFileRes with
  | Except.error errcode =>
      (syserror errcode, if actualNull then Option.none else Option.some 0)
  | Except.ok dwRead =>
      ((if dwRead ≠ size then dc_status_t.timeout else dc_status_t.success),
       if actualNull then Option.none else Option.some dwRead)

/-- Round-half-up division: the value of `num / den + 0.5` truncated to an
unsigned integer, which is how the double expressions at
serial_win32.c lines 488 and 492 are consumed.  Over exact arithmetic
this is `⌊num / den + 1/2⌋`, written here with natural division as
`(2 num + den) / (2 den)`; the equivalence is `roundHalfUp_floor`
below.  The operation is totalized at a zero divisor, where it yields
0 (C double division by zero instead produces an infinity or NaN). -/
def roundHalfUp (num den : Nat) : Nat := (2 * num + den) / (2 * den)

/-- The natural-division form of `roundHalfUp` agrees with the rational
floor of `num / den + 1/2`, including at a zero divisor (rational
division by zero being 0). -/
theorem roundHalfUp_floor (num den : Nat) :
    roundHalfUp num den = ⌊(num : ℚ) / (den : ℚ) + 1 / 2⌋₊ := by
  rcases Nat.eq_zero_or_pos den with h | h
  · subst h
    rw [roundHalfUp]
    norm_num
    rw [eq_comm, Nat.floor_eq_zero]
    norm_num
  · have hden : ((den : ℚ)) ≠ 0 := by positivity
    have heq : (num : ℚ) / (den : ℚ) + 1 / 2
        = ((2 * num + den : Nat) : ℚ) / ((2 * den : Nat) : ℚ) := by
      push_cast
      field_simp
      ring
    rw [roundHalfUp, heq, Nat.floor_div_eq_div]

/-- The elapsed time in microseconds computed at serial_win32.c line 488:
`1000000.0 * (end.QuadPart - begin.QuadPart) / freq.QuadPart + 0.5`
truncated to `unsigned long`, with the double arithmetic idealised as
exact arithmetic (the counter difference is natural subtraction, the
counter being monotone). -/
def elapsedUsec (tickBegin tickEnd freq : Nat) : Nat :=
  roundHalfUp (1000000 * (tickEnd - tickBegin)) freq

/-- The expected transmission duration in microseconds computed at
serial_win32.c line 492:
`1000000.0 * nbits / baudrate * size + 0.5 + 2000` truncated to
`unsigned long`, with the double arithmetic idealised as exact
arithmetic (over the rationals
`1000000 * nbits / baudrate * size = (1000000 * nbits * size) / baudrate`,
and the integer margin 2000 moves out of the floor). -/
def expectedUsec (nbits baudrate size : Nat) : Nat :=
  roundHalfUp (1000000 * nbits * size) baudrate + 2000

/-- Oracle results for the OS calls made by `dc_serial_write`:
`QueryPerformanceFrequency`, `QueryPerformanceCounter` before the
write, `WriteFile` (yielding the transferred count on success; the
count stays 0 on failure), and `QueryPerformanceCounter` after the
write. -/
structure WriteEnv where
  qpcFreq : Except Nat Nat
  qpcBegin : Except Nat Nat
  writeFile : Except Nat Nat
  qpcEnd : Except Nat Nat

/-- Embedding of `dc_serial_write` (serial_win32.c lines 452-514).  Result components:
the returned status, the value stored through `actual` (`Option.none`
when the pointer is null), and the argument of the `dc_serial_sleep`
call performed by the half-duplex turnaround (`Option.none` when no
sleep happens).  The control flow mirrors the source: with half-duplex
enabled the performance counter is sampled around `WriteFile`, a
failure of any OS call jumps to the `out` label, and the short-count
check runs after the turnaround sleep. -/
def dc_serial_write (env : WriteEnv) (device : dc_serial_t) (size : Nat)
    (actualNull : Bool) : dc_status_t × Option Nat × Option Nat :=
  let out := fun (status : dc_status_t) (dwWritten : Nat)
      (sleep : Option Nat) =>
    (status, if actualNull then Option.none else Option.some dwWritten, sleep)
  if device.halfduplex ≠ 0 then
    match env.qpcFreq with
    | Except.error errcode => out (syserror errcode) 0 Option.none
    | Except.ok freq =>
      match env.qpcBegin with
      | Except.error errcode => out (syserror errcode) 0 Option.none
      | Except.ok tickBegin =>
        match env.writeFile with
        | Except.error errcode => out (syserror errcode) 0 Option.none
        | Except.ok dwWritten =>
          match env.qpcEnd with
          | Except.error errcode => out (syserror errcode) dwWritten Option.none
          | Except.ok tickEnd =>
            let elapsed := elapsedUsec tickBegin tickEnd freq
            let expected := expectedUsec device.nbits device.baudrate size
            let sleep :=
              if elapsed < expected then
                Option.some ((expected - elapsed + 999) / 1000)
              else
                Option.none
            out (if dwWritten ≠ size then dc_status_t.timeout
                 else dc_status_t.success) dwWritten sleep
  else
    match env.writeFile with
    | Except.error errcode => out (syserror errcode) 0 Option.none
    | Except.ok dwWritten =>
        out (if dwWritten ≠ size then dc_status_t.timeout
             else dc_status_t.success) dwWritten Option.none

/-- One registry value as returned by `RegEnumValueA`: its type code, its
data interpreted as a string, and the reported data length in bytes. -/
structure RegEntry where
  typ : Nat
  data : String
  dataLen : Nat
  deriving DecidableEq, Repr

/-- The enumeration loop of `dc_serial_enumerate` (serial_win32.c lines
125-151) over the per-index `RegEnumValueA` outcomes: a failed read
aborts with a generic I/O error; a value of a type other than `REG_SZ`
is skipped; a string value whose length reaches the 512-byte buffer
bound aborts with the resource-exhaustion status; otherwise the
callback receives the value and the loop continues.  The returned list
is the sequence of callback arguments. -/
def enumValues : List (Except Nat RegEntry) → dc_status_t × List String
  | [] => (dc_status_t.success, [])
  | Except.error _ :: _ => (dc_status_t.ioerror, [])
  | Except.ok entry :: rest =>
    if entry.typ ≠ REG_SZ then
      enumValues rest
    else if 512 ≤ entry.dataLen then
      (dc_status_t.nomemory, [])
    else
      let r := enumValues rest
      (r.1, entry.data :: r.2)

/-- Oracle results for the registry calls made by `dc_serial_enumerate`:
the `RegOpenKeyExA` return code, the `RegQueryInfoKey` outcome, and the
list of per-index `RegEnumValueA` outcomes (its length plays the role
of the value count reported by `RegQueryInfoKey`). -/
structure RegEnv where
  openKey : Except Nat Unit
  queryInfo : Except Nat Unit
  entries : List (Except Nat RegEntry)

/-- Embedding of `dc_serial_enumerate` (serial_win32.c lines 104-156): an absent
registry key (`ERROR_FILE_NOT_FOUND`) is success with no callbacks, any
other open failure is a generic I/O error, a `RegQueryInfoKey` failure
is a generic I/O error, and otherwise the value-enumeration loop runs.
The returned list is the sequence of callback arguments. -/
def dc_serial_enumerate (env : RegEnv) : dc_status_t × List String :=
  match env.openKey with
  | Except.error rc =>
      if rc = ERROR_FILE_NOT_FOUND then (dc_status_t.success, [])
      else (dc_status_t.ioerror, [])
  | Except.ok _ =>
    match env.queryInfo with
    | Except.error _ => (dc_status_t.ioerror, [])
    | Except.ok _ => enumValues env.entries

/-- A concrete `DCB` value used to instantiate witnesses. -/
def dcbW : DCB :=
  { fBinary := false, fAbortOnError := true, BaudRate := 0, ByteSize := 8,
    Parity := 0, fParity := false, StopBits := 0, fInX := false,
    fOutX := false, fOutxCtsFlow := false, fOutxDsrFlow := false,
    fDtrControl := 0, fRtsControl := 0 }

/-- A concrete `COMMTIMEOUTS` value used to instantiate witnesses. -/
def ctW : COMMTIMEOUTS :=
  { ReadIntervalTimeout := 0, ReadTotalTimeoutMultiplier := 0,
    ReadTotalTimeoutConstant := 0, WriteTotalTimeoutMultiplier := 0,
    WriteTotalTimeoutConstant := 0 }

/-- A second concrete `COMMTIMEOUTS` value, different from `ctW`, used to
instantiate the independence part of the timeout witness. -/
def ctW2 : COMMTIMEOUTS :=
  { ReadIntervalTimeout := 1, ReadTotalTimeoutMultiplier := 2,
    ReadTotalTimeoutConstant := 3, WriteTotalTimeoutMultiplier := 4,
    WriteTotalTimeoutConstant := 5 }

/-- A concrete full-duplex session state used to instantiate witnesses. -/
def devW : dc_serial_t :=
  { dcb := dcbW, timeouts := ctW, halfduplex := 0, baudrate := 0, nbits := 0 }

/-- A concrete half-duplex session state (as left by a successful
configure at 9600 baud, 8 data bits, no parity, one stop bit) used to
instantiate witnesses. -/
def devWHD : dc_serial_t :=
  { dcb := dcbW, timeouts := ctW, halfduplex := 1, baudrate := 9600,
    nbits := 9 }

/-- C7: the translation of OS-native error codes into the portable status
taxonomy is a fixed total function: `ERROR_INVALID_PARAMETER` maps to
invalid-arguments, `ERROR_OUTOFMEMORY` to resource-exhaustion,
`ERROR_FILE_NOT_FOUND` to device-absent, `ERROR_ACCESS_DENIED` to
access-denied, and every other code to the generic I/O failure
status. -/
theorem c7_syserror_taxonomy :
    syserror ERROR_INVALID_PARAMETER = dc_status_t.invalidargs ∧
    syserror ERROR_OUTOFMEMORY = dc_status_t.nomemory ∧
    syserror ERROR_FILE_NOT_FOUND = dc_status_t.nodevice ∧
    syserror ERROR_ACCESS_DENIED = dc_status_t.noaccess ∧
    ∀ errcode : Nat, errcode ≠ ERROR_INVALID_PARAMETER →
      errcode ≠ ERROR_OUTOFMEMORY → errcode ≠ ERROR_FILE_NOT_FOUND →
      errcode ≠ ERROR_ACCESS_DENIED → syserror errcode = dc_status_t.ioerror := by
  refine ⟨rfl, rfl, rfl, rfl, ?_⟩
  intro errcode h1 h2 h3 h4
  simp [syserror, h1, h2, h3, h4]

/-- Witness for C7: the unmapped code 122 (`ERROR_INSUFFICIENT_BUFFER`)
translates to the generic I/O failure status. -/
theorem c7_syserror_taxonomy_witness :
    syserror 122 = dc_status_t.ioerror :=
  c7_syserror_taxonomy.2.2.2.2 122 (by decide) (by decide) (by decide)
    (by decide)

/-- C1 (amended): for every configure call with valid arguments whose OS
calls succeed, the recorded bit-time count equals
`1 + data_bits + s + (1 if parity is not none else 0)` where `s` is the
ordinal value of the stop-bits enumerator (0 for one, 1 for
one-and-a-half, 2 for two), and the recorded baud rate equals the
requested baud rate. -/
theorem c1_configure_nbits (getState : Except Nat DCB)
    (setState : DCB → Except Nat Unit) (device : dc_serial_t)
    (baudrate databits : Nat) (parity : dc_parity_t)
    (stopbits : dc_stopbits_t) (flowcontrol : dc_flowcontrol_t)
    (dcbCur : DCB) (hget : getState = Except.ok dcbCur)
    (hset : ∀ dcb, setState dcb = Except.ok ())
    (h5 : 5 ≤ databits) (h8 : databits ≤ 8) :
    (dc_serial_configure getState setState device baudrate databits parity
        stopbits flowcontrol).1 = dc_status_t.success ∧
    (dc_serial_configure getState setState device baudrate databits parity
        stopbits flowcontrol).2.1.nbits
      = 1 + databits + stopbitsVal stopbits
          + (if parity = dc_parity_t.none then 0 else 1) ∧
    (dc_serial_configure getState setState device baudrate databits parity
        stopbits flowcontrol).2.1.baudrate = baudrate := by
  subst hget
  simp [dc_serial_configure, hset, h5, h8, parityBit]

/-- Counterexample for C1 as stated: configuring 9600 baud, 8 data bits,
no parity, one stop bit, no flow control succeeds but records a
bit-time count of 9, not the `1 + 8 + 1 = 10` required by the claim
(the source adds the stop-bits enumerator ordinal, which is 0 for one
stop bit, not the number of stop bits). -/
theorem c1_configure_nbits_counterexample :
    (dc_serial_configure (Except.ok dcbW) (fun _ => Except.ok ())
        devW 9600 8 dc_parity_t.none dc_stopbits_t.one
        dc_flowcontrol_t.none).1 = dc_status_t.success ∧
    (dc_serial_configure (Except.ok dcbW) (fun _ => Except.ok ())
        devW 9600 8 dc_parity_t.none dc_stopbits_t.one
        dc_flowcontrol_t.none).2.1.nbits = 9 ∧
    (9 : Nat) ≠ 1 + 8 + 1 := by
  refine ⟨by decide, by decide, by decide⟩

/-- Witness for the amended C1: configuring 115200 baud, 7 data bits,
even parity, two stop bits, hardware flow control succeeds and records
bit-time count `1 + 7 + 2 + 1 = 11` and baud rate 115200. -/
theorem c1_configure_nbits_witness :
    (dc_serial_configure (Except.ok dcbW) (fun _ => Except.ok ())
        devW 115200 7 dc_parity_t.even dc_stopbits_t.two
        dc_flowcontrol_t.hardware).1 = dc_status_t.success ∧
    (dc_serial_configure (Except.ok dcbW) (fun _ => Except.ok ())
        devW 115200 7 dc_parity_t.even dc_stopbits_t.two
        dc_flowcontrol_t.hardware).2.1.nbits
      = 1 + 7 + stopbitsVal dc_stopbits_t.two
          + (if dc_parity_t.even = dc_parity_t.none then 0 else 1) ∧
    (dc_serial_configure (Except.ok dcbW) (fun _ => Except.ok ())
        devW 115200 7 dc_parity_t.even dc_stopbits_t.two
        dc_flowcontrol_t.hardware).2.1.baudrate = 115200 :=
  c1_configure_nbits (Except.ok dcbW) (fun _ => Except.ok ()) devW
    115200 7 dc_parity_t.even dc_stopbits_t.two dc_flowcontrol_t.hardware
    dcbW rfl (fun _ => rfl) (by decide) (by decide)

/-- C2: a configure call with `data_bits` outside [5,8] never touches the
session state and never applies a port configuration, and — whenever
the initial query of the current settings succeeds — returns the
invalid-arguments status. -/
theorem c2_configure_invalid_databits (getState : Except Nat DCB)
    (setState : DCB → Except Nat Unit) (device : dc_serial_t)
    (baudrate databits : Nat) (parity : dc_parity_t)
    (stopbits : dc_stopbits_t) (flowcontrol : dc_flowcontrol_t)
    (hbad : ¬ (5 ≤ databits ∧ databits ≤ 8)) :
    ((dc_serial_configure getState setState device baudrate databits parity
        stopbits flowcontrol).2.1 = device ∧
     (dc_serial_configure getState setState device baudrate databits parity
        stopbits flowcontrol).2.2 = Option.none) ∧
    (∀ dcbCur, getState = Except.ok dcbCur →
      (dc_serial_configure getState setState device baudrate databits parity
        stopbits flowcontrol).1 = dc_status_t.invalidargs) := by
  cases getState with
  | error errcode => simp [dc_serial_configure]
  | ok dcbCur => simp [dc_serial_configure, hbad]

/-- Witness for C2: a configure call with 9 data bits on a freshly opened
session leaves the state unchanged, applies nothing, and returns the
invalid-arguments status. -/
theorem c2_configure_invalid_databits_witness :
    (((dc_serial_configure (Except.ok dcbW) (fun _ => Except.ok ())
        devW 9600 9 dc_parity_t.none dc_stopbits_t.one
        dc_flowcontrol_t.none).2.1 = devW ∧
      (dc_serial_configure (Except.ok dcbW) (fun _ => Except.ok ())
        devW 9600 9 dc_parity_t.none dc_stopbits_t.one
        dc_flowcontrol_t.none).2.2 = Option.none) ∧
     (∀ dcbCur, (Except.ok dcbW : Except Nat DCB) = Except.ok dcbCur →
      (dc_serial_configure (Except.ok dcbW) (fun _ => Except.ok ())
        devW 9600 9 dc_parity_t.none dc_stopbits_t.one
        dc_flowcontrol_t.none).1 = dc_status_t.invalidargs)) :=
  c2_configure_invalid_databits (Except.ok dcbW) (fun _ => Except.ok ())
    devW 9600 9 dc_parity_t.none dc_stopbits_t.one dc_flowcontrol_t.none
    (by decide)

/-- A concrete write-call environment in which the OS calls succeed and
`WriteFile` transfers 2 bytes. -/
def wenvW : WriteEnv :=
  { qpcFreq := Except.ok 1000000, qpcBegin := Except.ok 0,
    writeFile := Except.ok 2, qpcEnd := Except.ok 1000 }

/-- A concrete write-call environment in which the OS calls succeed and
`WriteFile` transfers 10 bytes. -/
def wenvW10 : WriteEnv :=
  { qpcFreq := Except.ok 1000000, qpcBegin := Except.ok 0,
    writeFile := Except.ok 10, qpcEnd := Except.ok 1000 }

/-- A concrete write-call environment in which `WriteFile` fails with
`ERROR_ACCESS_DENIED`. -/
def wenvErr : WriteEnv :=
  { qpcFreq := Except.ok 1000000, qpcBegin := Except.ok 0,
    writeFile := Except.error 5, qpcEnd := Except.ok 1000 }

/-- C3: when the OS transfer primitive succeeds, a read or write returns
success exactly when the transferred count equals the requested size,
and on a short transfer it returns the timeout status with `actual` set
to the number of bytes actually transferred.  For the write path the
performance-counter calls of the half-duplex branch are also assumed to
succeed, so that the statement covers both duplex modes. -/
theorem c3_partial_transfer_reporting :
    (∀ dwRead size : Nat,
      ((dc_serial_read (Except.ok dwRead) size false).1 = dc_status_t.success
        ↔ dwRead = size) ∧
      (dwRead < size →
        (dc_serial_read (Except.ok dwRead) size false).1 = dc_status_t.timeout ∧
        (dc_serial_read (Except.ok dwRead) size false).2 = Option.some dwRead)) ∧
    (∀ (env : WriteEnv) (device : dc_serial_t)
        (size dwWritten freq tickBegin tickEnd : Nat),
      env.qpcFreq = Except.ok freq → env.qpcBegin = Except.ok tickBegin →
      env.writeFile = Except.ok dwWritten → env.qpcEnd = Except.ok tickEnd →
      ((dc_serial_write env device size false).1 = dc_status_t.success
        ↔ dwWritten = size) ∧
      (dwWritten < size →
        (dc_serial_write env device size false).1 = dc_status_t.timeout ∧
        (dc_serial_write env device size false).2.1
          = Option.some dwWritten)) := by
  constructor
  · intro dwRead size
    constructor
    · by_cases h : dwRead = size <;> simp [dc_serial_read, h]
    · intro hlt
      have h : dwRead ≠ size := Nat.ne_of_lt hlt
      simp [dc_serial_read, h]
  · intro env device size dwWritten freq tickBegin tickEnd hf hb hw he
    by_cases hhd : device.halfduplex = 0
    · constructor
      · by_cases h : dwWritten = size <;> simp [dc_serial_write, hhd, hw, h]
      · intro hlt
        have h : dwWritten ≠ size := Nat.ne_of_lt hlt
        simp [dc_serial_write, hhd, hw, h]
    · constructor
      · by_cases h : dwWritten = size <;>
          simp [dc_serial_write, hhd, hf, hb, hw, he, h]
      · intro hlt
        have h : dwWritten ≠ size := Nat.ne_of_lt hlt
        simp [dc_serial_write, hhd, hf, hb, hw, he, h]

/-- Witness for C3: a read and a half-duplex write that each transfer 2 of
4 requested bytes return the timeout status and report `actual = 2`. -/
theorem c3_partial_transfer_reporting_witness :
    ((dc_serial_read (Except.ok 2) 4 false).1 = dc_status_t.timeout ∧
     (dc_serial_read (Except.ok 2) 4 false).2 = Option.some 2) ∧
    ((dc_serial_write wenvW devWHD 4 false).1 = dc_status_t.timeout ∧
     (dc_serial_write wenvW devWHD 4 false).2.1 = Option.some 2) :=
  ⟨(c3_partial_transfer_reporting.1 2 4).2 (by decide),
   (c3_partial_transfer_reporting.2 wenvW devWHD 4 2 1000000 0 1000
      rfl rfl rfl rfl).2 (by decide)⟩

/-- C4: on a half-duplex write whose OS calls succeed, if the measured
elapsed time is below the expected duration
(`1000000 * nbits * size / baudrate` microseconds rounded half-up plus
the fixed 2000-microsecond margin), the backend sleeps for the
remaining difference rounded up to the next whole millisecond — the
slept milliseconds cover the remaining microseconds and overshoot by
less than one millisecond — and if the elapsed time is at least the
expected duration, no sleep occurs. -/
theorem c4_halfduplex_turnaround (env : WriteEnv) (device : dc_serial_t)
    (size freq tickBegin tickEnd dwWritten : Nat) (actualNull : Bool)
    (hhd : device.halfduplex ≠ 0)
    (hf : env.qpcFreq = Except.ok freq)
    (hb : env.qpcBegin = Except.ok tickBegin)
    (hw : env.writeFile = Except.ok dwWritten)
    (he : env.qpcEnd = Except.ok tickEnd) :
    (elapsedUsec tickBegin tickEnd freq
        < expectedUsec device.nbits device.baudrate size →
      (dc_serial_write env device size actualNull).2.2
        = Option.some ((expectedUsec device.nbits device.baudrate size
            - elapsedUsec tickBegin tickEnd freq + 999) / 1000) ∧
      expectedUsec device.nbits device.baudrate size
          - elapsedUsec tickBegin tickEnd freq
        ≤ 1000 * ((expectedUsec device.nbits device.baudrate size
            - elapsedUsec tickBegin tickEnd freq + 999) / 1000) ∧
      1000 * ((expectedUsec device.nbits device.baudrate size
            - elapsedUsec tickBegin tickEnd freq + 999) / 1000)
        < expectedUsec device.nbits device.baudrate size
            - elapsedUsec tickBegin tickEnd freq + 1000) ∧
    (expectedUsec device.nbits device.baudrate size
        ≤ elapsedUsec tickBegin tickEnd freq →
      (dc_serial_write env device size actualNull).2.2 = Option.none) := by
  constructor
  · intro hlt
    refine ⟨?_, by omega, by omega⟩
    simp [dc_serial_write, hhd, hf, hb, hw, he, hlt]
  · intro hge
    have h : ¬ elapsedUsec tickBegin tickEnd freq
        < expectedUsec device.nbits device.baudrate size := not_lt.2 hge
    simp [dc_serial_write, hhd, hf, hb, hw, he, h]

/-- Witness for C4: a 10-byte half-duplex write at 9600 baud with 9
bit-times per byte that completes in 1000 measured microseconds sleeps
for `(11375 - 1000 + 999) / 1000 = 11` milliseconds. -/
theorem c4_halfduplex_turnaround_witness :
    (dc_serial_write wenvW10 devWHD 10 false).2.2
      = Option.some ((expectedUsec devWHD.nbits devWHD.baudrate 10
          - elapsedUsec 0 1000 1000000 + 999) / 1000) ∧
    expectedUsec devWHD.nbits devWHD.baudrate 10
        - elapsedUsec 0 1000 1000000
      ≤ 1000 * ((expectedUsec devWHD.nbits devWHD.baudrate 10
          - elapsedUsec 0 1000 1000000 + 999) / 1000) ∧
    1000 * ((expectedUsec devWHD.nbits devWHD.baudrate 10
          - elapsedUsec 0 1000 1000000 + 999) / 1000)
      < expectedUsec devWHD.nbits devWHD.baudrate 10
          - elapsedUsec 0 1000 1000000 + 1000 :=
  (c4_halfduplex_turnaround wenvW10 devWHD 10 1000000 0 1000 10 false
    (by decide) rfl rfl rfl rfl).1 (by decide)

/-- C10: the `actual` output parameter is not written when the caller
passes a null pointer, and when it is non-null it is written on every
return path of read and write — success, timeout and OS-error paths
alike — receiving the transferred byte count, which is zero whenever
the OS transfer primitive failed or was never reached. -/
theorem c10_actual_output_paths :
    (∀ (res : Except Nat Nat) (size : Nat),
      (dc_serial_read res size true).2 = Option.none) ∧
    (∀ dwRead size : Nat,
      (dc_serial_read (Except.ok dwRead) size false).2
        = Option.some dwRead) ∧
    (∀ errcode size : Nat,
      (dc_serial_read (Except.error errcode) size false).2
        = Option.some 0) ∧
    (∀ (env : WriteEnv) (device : dc_serial_t) (size : Nat),
      (dc_serial_write env device size true).2.1 = Option.none) ∧
    (∀ (env : WriteEnv) (device : dc_serial_t) (size errcode : Nat),
      device.halfduplex = 0 → env.writeFile = Except.error errcode →
      (dc_serial_write env device size false).2.1 = Option.some 0) ∧
    (∀ (env : WriteEnv) (device : dc_serial_t) (size dwWritten : Nat),
      device.halfduplex = 0 → env.writeFile = Except.ok dwWritten →
      (dc_serial_write env device size false).2.1
        = Option.some dwWritten) ∧
    (∀ (env : WriteEnv) (device : dc_serial_t) (size errcode : Nat),
      device.halfduplex ≠ 0 → env.qpcFreq = Except.error errcode →
      (dc_serial_write env device size false).2.1 = Option.some 0) ∧
    (∀ (env : WriteEnv) (device : dc_serial_t) (size freq errcode : Nat),
      device.halfduplex ≠ 0 → env.qpcFreq = Except.ok freq →
      env.qpcBegin = Except.error errcode →
      (dc_serial_write env device size false).2.1 = Option.some 0) ∧
    (∀ (env : WriteEnv) (device : dc_serial_t)
        (size freq tickBegin errcode : Nat),
      device.halfduplex ≠ 0 → env.qpcFreq = Except.ok freq →
      env.qpcBegin = Except.ok tickBegin →
      env.writeFile = Except.error errcode →
      (dc_serial_write env device size false).2.1 = Option.some 0) ∧
    (∀ (env : WriteEnv) (device : dc_serial_t)
        (size freq tickBegin dwWritten : Nat),
      device.halfduplex ≠ 0 → env.qpcFreq = Except.ok freq →
      env.qpcBegin = Except.ok tickBegin →
      env.writeFile = Except.ok dwWritten →
      (dc_serial_write env device size false).2.1
        = Option.some dwWritten) := by
  refine ⟨?_, ?_, ?_, ?_, ?_, ?_, ?_, ?_, ?_, ?_⟩
  · intro res size
    cases res <;> simp [dc_serial_read]
  · intro dwRead size
    simp [dc_serial_read]
  · intro errcode size
    simp [dc_serial_read]
  · intro env device size
    by_cases hhd : device.halfduplex = 0
    · cases hw : env.writeFile <;> simp [dc_serial_write, hhd, hw]
    · cases hf : env.qpcFreq with
      | error e => simp [dc_serial_write, hhd, hf]
      | ok freq =>
        cases hb : env.qpcBegin with
        | error e => simp [dc_serial_write, hhd, hf, hb]
        | ok tickBegin =>
          cases hw : env.writeFile with
          | error e => simp [dc_serial_write, hhd, hf, hb, hw]
          | ok dwWritten =>
            cases he : env.qpcEnd <;>
              simp [dc_serial_write, hhd, hf, hb, hw, he]
  · intro env device size errcode hhd hw
    simp [dc_serial_write, hhd, hw]
  · intro env device size dwWritten hhd hw
    simp [dc_serial_write, hhd, hw]
  · intro env device size errcode hhd hf
    simp [dc_serial_write, hhd, hf]
  · intro env device size freq errcode hhd hf hb
    simp [dc_serial_write, hhd, hf, hb]
  · intro env device size freq tickBegin errcode hhd hf hb hw
    simp [dc_serial_write, hhd, hf, hb, hw]
  · intro env device size freq tickBegin dwWritten hhd hf hb hw
    cases he : env.qpcEnd <;> simp [dc_serial_write, hhd, hf, hb, hw, he]

/-- Witness for C10: a half-duplex write whose `WriteFile` call fails with
`ERROR_ACCESS_DENIED` still reports `actual = 0` through a non-null
output pointer. -/
theorem c10_actual_output_paths_witness :
    (dc_serial_write wenvErr devWHD 4 false).2.1 = Option.some 0 :=
  c10_actual_output_paths.2.2.2.2.2.2.2.2.1 wenvErr devWHD 4 1000000 0 5
    (by decide) rfl rfl rfl

/-- Every branch of the `syserror` translation yields an error status,
never success. -/
theorem syserror_ne_success (errcode : Nat) :
    syserror errcode ≠ dc_status_t.success := by
  simp only [syserror]
  split_ifs <;> simp

/-- C5: close always attempts the restore step and always executes the
handle-release step (which comes last), even when restoration fails;
and the returned status is the first encountered error — a restore
failure is reported even when the release also fails, a release
failure is reported when the restore succeeded, and success is
returned only when every step succeeded. -/
theorem c5_close_restore_release (env : CloseEnv) :
    CloseStep.setState ∈ (dc_serial_close env).2 ∧
    CloseStep.handleClose ∈ (dc_serial_close env).2 ∧
    (dc_serial_close env).2.getLast? = some CloseStep.handleClose ∧
    (∀ errcode, env.setCommState = Except.error errcode →
      (dc_serial_close env).1 = syserror errcode) ∧
    (∀ errcode, env.setCommState = Except.ok () →
      env.setCommTimeouts = Except.error errcode →
      (dc_serial_close env).1 = syserror errcode) ∧
    (∀ errcode, env.setCommState = Except.ok () →
      env.setCommTimeouts = Except.ok () →
      env.closeHandle = Except.error errcode →
      (dc_serial_close env).1 = syserror errcode) ∧
    (env.setCommState = Except.ok () → env.setCommTimeouts = Except.ok () →
      env.closeHandle = Except.ok () →
      (dc_serial_close env).1 = dc_status_t.success) := by
  obtain ⟨scs, sct, ch⟩ := env
  cases scs <;> cases sct <;> cases ch <;>
    refine ⟨by simp [dc_serial_close], by simp [dc_serial_close],
            by simp [dc_serial_close], ?_, ?_, ?_, ?_⟩ <;>
    · intros
      simp_all [dc_serial_close, dc_status_set_error, syserror_ne_success]

/-- A concrete close environment in which the restore step fails with
`ERROR_ACCESS_DENIED` and the handle-release step fails with
`ERROR_FILE_NOT_FOUND`. -/
def cenvW : CloseEnv :=
  { setCommState := Except.error 5, setCommTimeouts := Except.ok (),
    closeHandle := Except.error 2 }

/-- Witness for C5: when restoring the configuration fails with
`ERROR_ACCESS_DENIED` and closing the handle also fails, the release
step is still attempted and the returned status is the restore
failure's translation (access-denied), not the later error. -/
theorem c5_close_restore_release_witness :
    CloseStep.handleClose ∈ (dc_serial_close cenvW).2 ∧
    (dc_serial_close cenvW).1 = syserror 5 :=
  ⟨(c5_close_restore_release cenvW).2.1,
   (c5_close_restore_release cenvW).2.2.2.1 5 rfl⟩

/-- Processing a prefix of successfully read registry values whose
string-typed entries fit the buffer bound passes the remainder's status
through and prepends the prefix's string-typed values to the
remainder's callback sequence. -/
theorem enumValues_ok_prefix (good : List RegEntry)
    (tail : List (Except Nat RegEntry))
    (h : ∀ e ∈ good, e.typ = REG_SZ → e.dataLen < 512) :
    enumValues (good.map Except.ok ++ tail)
      = ((enumValues tail).1,
         ((good.filter (fun e => e.typ == REG_SZ)).map RegEntry.data)
           ++ (enumValues tail).2) := by
  induction good with
  | nil => simp
  | cons e rest ih =>
    have hrest : ∀ x ∈ rest, x.typ = REG_SZ → x.dataLen < 512 := by
      intro x hx
      exact h x (List.mem_cons_of_mem e hx)
    by_cases ht : e.typ = REG_SZ
    · have hlen : e.dataLen < 512 := h e (List.mem_cons_self e rest) ht
      have hnotge : ¬ 512 ≤ e.dataLen := not_le.2 hlen
      simp [enumValues, ht, hnotge, ih hrest, List.filter_cons]
    · simp [enumValues, ht, ih hrest, List.filter_cons]

/-- C6: enumeration over an absent registry location returns success with
zero callbacks; any other open failure or an information-query failure
returns the generic I/O error with zero callbacks; when every entry is
read successfully and every string value fits the buffer, the callback
receives exactly the string-typed entries' values in order, non-string
entries being skipped; a failing entry read aborts the run with the
generic I/O error after the callbacks already made; and a string value
reaching the buffer bound aborts the run with the resource-exhaustion
status after the callbacks already made. -/
theorem c6_enumerate_behaviour :
    (∀ (q : Except Nat Unit) (L : List (Except Nat RegEntry)),
      dc_serial_enumerate
          { openKey := Except.error ERROR_FILE_NOT_FOUND, queryInfo := q,
            entries := L }
        = (dc_status_t.success, [])) ∧
    (∀ (rc : Nat) (q : Except Nat Unit) (L : List (Except Nat RegEntry)),
      rc ≠ ERROR_FILE_NOT_FOUND →
      dc_serial_enumerate
          { openKey := Except.error rc, queryInfo := q, entries := L }
        = (dc_status_t.ioerror, [])) ∧
    (∀ (errcode : Nat) (L : List (Except Nat RegEntry)),
      dc_serial_enumerate
          { openKey := Except.ok (), queryInfo := Except.error errcode,
            entries := L }
        = (dc_status_t.ioerror, [])) ∧
    (∀ entries : List RegEntry,
      (∀ e ∈ entries, e.typ = REG_SZ → e.dataLen < 512) →
      dc_serial_enumerate
          { openKey := Except.ok (), queryInfo := Except.ok (),
            entries := entries.map Except.ok }
        = (dc_status_t.success,
           (entries.filter (fun e => e.typ == REG_SZ)).map RegEntry.data)) ∧
    (∀ (good : List RegEntry) (rc : Nat)
        (rest : List (Except Nat RegEntry)),
      (∀ e ∈ good, e.typ = REG_SZ → e.dataLen < 512) →
      dc_serial_enumerate
          { openKey := Except.ok (), queryInfo := Except.ok (),
            entries := good.map Except.ok ++ Except.error rc :: rest }
        = (dc_status_t.ioerror,
           (good.filter (fun e => e.typ == REG_SZ)).map RegEntry.data)) ∧
    (∀ (good : List RegEntry) (entry : RegEntry)
        (rest : List (Except Nat RegEntry)),
      (∀ e ∈ good, e.typ = REG_SZ → e.dataLen < 512) →
      entry.typ = REG_SZ → 512 ≤ entry.dataLen →
      dc_serial_enumerate
          { openKey := Except.ok (), queryInfo := Except.ok (),
            entries := good.map Except.ok ++ Except.ok entry :: rest }
        = (dc_status_t.nomemory,
           (good.filter (fun e => e.typ == REG_SZ)).map RegEntry.data)) := by
  refine ⟨?_, ?_, ?_, ?_, ?_, ?_⟩
  · intro q L
    simp [dc_serial_enumerate]
  · intro rc q L hrc
    simp [dc_serial_enumerate, hrc]
  · intro errcode L
    simp [dc_serial_enumerate]
  · intro entries h
    have := enumValues_ok_prefix entries [] h
    simp [enumValues] at this
    simp [dc_serial_enumerate, this]
  · intro good rc rest h
    have := enumValues_ok_prefix good (Except.error rc :: rest) h
    simp [enumValues] at this
    simp [dc_serial_enumerate, this]
  · intro good entry rest h hty hlen
    have := enumValues_ok_prefix good (Except.ok entry :: rest) h
    simp [enumValues, hty, hlen] at this
    simp [dc_serial_enumerate, this]

/-- Witness for C6: a registry location holding three string-typed values
and one non-string value yields success with exactly the three string
values as callbacks, the non-string entry being skipped. -/
theorem c6_enumerate_behaviour_witness :
    dc_serial_enumerate
        { openKey := Except.ok (), queryInfo := Except.ok (),
          entries := ([{ typ := 1, data := "COM1", dataLen := 5 },
                       { typ := 3, data := "bin", dataLen := 4 },
                       { typ := 1, data := "COM3", dataLen := 5 },
                       { typ := 1, data := "COM8", dataLen := 5 }]
                      : List RegEntry).map Except.ok }
      = (dc_status_t.success, ["COM1", "COM3", "COM8"]) := by
  have h := c6_enumerate_behaviour.2.2.2.1
    [{ typ := 1, data := "COM1", dataLen := 5 },
     { typ := 3, data := "bin", dataLen := 4 },
     { typ := 1, data := "COM3", dataLen := 5 },
     { typ := 1, data := "COM8", dataLen := 5 }] (by decide)
  simpa [REG_SZ] using h

/-- C8: `set_timeout` overwrites the whole timeout configuration according
to the sign of its argument alone: a negative timeout zeroes all five
fields (blocking mode), a zero timeout sets the read interval to
`MAXDWORD` with all other fields zero (non-blocking mode), and a
positive timeout sets only the total read-timeout constant to the given
value, with no per-byte multiplier and no inter-byte interval; the
applied configuration is independent of the previously active
timeouts. -/
theorem c8_set_timeout_modes (cur cur2 : COMMTIMEOUTS)
    (setTimeouts : COMMTIMEOUTS → Except Nat Unit) (timeout : Int)
    (hset : ∀ t, setTimeouts t = Except.ok ()) :
    (dc_serial_set_timeout (Except.ok cur) setTimeouts timeout).1
      = dc_status_t.success ∧
    (timeout < 0 →
      (dc_serial_set_timeout (Except.ok cur) setTimeouts timeout).2
        = Option.some
            { ReadIntervalTimeout := 0, ReadTotalTimeoutMultiplier := 0,
              ReadTotalTimeoutConstant := 0,
              WriteTotalTimeoutMultiplier := 0,
              WriteTotalTimeoutConstant := 0 }) ∧
    (timeout = 0 →
      (dc_serial_set_timeout (Except.ok cur) setTimeouts timeout).2
        = Option.some
            { ReadIntervalTimeout := MAXDWORD,
              ReadTotalTimeoutMultiplier := 0,
              ReadTotalTimeoutConstant := 0,
              WriteTotalTimeoutMultiplier := 0,
              WriteTotalTimeoutConstant := 0 }) ∧
    (0 < timeout →
      (dc_serial_set_timeout (Except.ok cur) setTimeouts timeout).2
        = Option.some
            { ReadIntervalTimeout := 0, ReadTotalTimeoutMultiplier := 0,
              ReadTotalTimeoutConstant := timeout.toNat,
              WriteTotalTimeoutMultiplier := 0,
              WriteTotalTimeoutConstant := 0 }) ∧
    (dc_serial_set_timeout (Except.ok cur) setTimeouts timeout).2
      = (dc_serial_set_timeout (Except.ok cur2) setTimeouts timeout).2 := by
  refine ⟨?_, ?_, ?_, ?_, rfl⟩
  · simp [dc_serial_set_timeout, hset]
  · intro h
    simp [dc_serial_set_timeout, hset, h]
  · intro h
    simp [dc_serial_set_timeout, hset, h]
  · intro h
    have h1 : ¬ timeout < 0 := by omega
    have h2 : ¬ timeout = 0 := by omega
    simp [dc_serial_set_timeout, hset, h1, h2]

/-- Witness for C8: `set_timeout 250` installs a total read deadline of
250 with zero interval and multiplier fields, and installs the same
configuration regardless of which timeouts were previously active. -/
theorem c8_set_timeout_modes_witness :
    (dc_serial_set_timeout (Except.ok ctW) (fun _ => Except.ok ()) 250).2
      = Option.some
          { ReadIntervalTimeout := 0, ReadTotalTimeoutMultiplier := 0,
            ReadTotalTimeoutConstant := (250 : Int).toNat,
            WriteTotalTimeoutMultiplier := 0,
            WriteTotalTimeoutConstant := 0 } ∧
    (dc_serial_set_timeout (Except.ok ctW) (fun _ => Except.ok ()) 250).2
      = (dc_serial_set_timeout (Except.ok ctW2)
          (fun _ => Except.ok ()) 250).2 :=
  ⟨(c8_set_timeout_modes ctW ctW2 (fun _ => Except.ok ()) 250
      (fun _ => rfl)).2.2.2.1 (by decide),
   (c8_set_timeout_modes ctW ctW2 (fun _ => Except.ok ()) 250
      (fun _ => rfl)).2.2.2.2⟩

/-- C9: a freshly opened session records a zero baud rate, a zero bit-time
count and full duplex; a configure call that does not return success
leaves the session state unchanged, and enabling half-duplex does not
touch the recorded baud rate or bit-time count, so the baud rate stays
zero until a configure call succeeds; and the half-duplex turnaround
computation of write divides by the stored baud rate with no zero
guard — in this embedding the totalized division makes the expected
duration collapse to the bare 2000-microsecond margin, while the C
double division by zero produces an infinity or NaN, so the
computation is meaningful only after a successful configure has stored
a nonzero baud rate. -/
theorem c9_unguarded_zero_baudrate :
    (∀ (env : OpenEnv) (device : dc_serial_t),
      dc_serial_open env = Except.ok device →
      device.baudrate = 0 ∧ device.nbits = 0 ∧ device.halfduplex = 0) ∧
    (∀ (getState : Except Nat DCB) (setState : DCB → Except Nat Unit)
        (device : dc_serial_t) (baudrate databits : Nat)
        (parity : dc_parity_t) (stopbits : dc_stopbits_t)
        (flowcontrol : dc_flowcontrol_t),
      (dc_serial_configure getState setState device baudrate databits
          parity stopbits flowcontrol).1 ≠ dc_status_t.success →
      (dc_serial_configure getState setState device baudrate databits
          parity stopbits flowcontrol).2.1 = device) ∧
    (∀ (device : dc_serial_t) (value : Nat),
      (dc_serial_set_halfduplex device value).2.baudrate = device.baudrate ∧
      (dc_serial_set_halfduplex device value).2.nbits = device.nbits) ∧
    (∀ nbits size : Nat, expectedUsec nbits 0 size = 2000) ∧
    (∀ (env : WriteEnv) (device : dc_serial_t)
        (size freq tickBegin tickEnd dwWritten : Nat) (actualNull : Bool),
      device.halfduplex ≠ 0 → device.baudrate = 0 →
      env.qpcFreq = Except.ok freq → env.qpcBegin = Except.ok tickBegin →
      env.writeFile = Except.ok dwWritten → env.qpcEnd = Except.ok tickEnd →
      (dc_serial_write env device size actualNull).2.2
        = (if elapsedUsec tickBegin tickEnd freq < 2000
           then Option.some
             ((2000 - elapsedUsec tickBegin tickEnd freq + 999) / 1000)
           else Option.none)) := by
  refine ⟨?_, ?_, ?_, ?_, ?_⟩
  · intro env device h
    obtain ⟨cf, gs, gt⟩ := env
    cases cf with
    | error errcode => simp [dc_serial_open] at h
    | ok u =>
      cases gs with
      | error errcode => simp [dc_serial_open] at h
      | ok dcbCur =>
        cases gt with
        | error errcode => simp [dc_serial_open] at h
        | ok tCur =>
          simp only [dc_serial_open, Except.ok.injEq] at h
          subst h
          exact ⟨rfl, rfl, rfl⟩
  · intro getState setState device baudrate databits parity stopbits
      flowcontrol h
    rcases getState with errcode | dcbCur
    · simp [dc_serial_configure]
    · by_cases hd : 5 ≤ databits ∧ databits ≤ 8
      · rcases hs : setState (applyFlowcontrol (applyStopbits (applyParity ({ dcbCur with fBinary := true, fAbortOnError := false, BaudRate := baudrate, ByteSize := databits }) parity) stopbits) flowcontrol) with errcode2 | u
        · simp [dc_serial_configure, hd, hs]
        · exfalso
          apply h
          simp [dc_serial_configure, hd, hs]
      · simp [dc_serial_configure, hd]
  · intro device value
    exact ⟨rfl, rfl⟩
  · intro nbits size
    simp [expectedUsec, roundHalfUp]
  · intro env device size freq tickBegin tickEnd dwWritten actualNull hhd
      hb0 hf hqb hw hqe
    have hexp : expectedUsec device.nbits device.baudrate size = 2000 := by
      rw [hb0]
      simp [expectedUsec, roundHalfUp]
    by_cases hlt : elapsedUsec tickBegin tickEnd freq < 2000
    · simp [dc_serial_write, hhd, hf, hqb, hw, hqe, hexp, hlt]
    · simp [dc_serial_write, hhd, hf, hqb, hw, hqe, hexp, hlt]

/-- A concrete session state with half-duplex enabled on which no
configure call has ever succeeded: the baud rate and bit-time count
still hold their open-time zero values. -/
def devHD0 : dc_serial_t :=
  { dcb := dcbW, timeouts := ctW, halfduplex := 1, baudrate := 0,
    nbits := 0 }

/-- Witness for C9: a half-duplex write on a session whose baud rate is
still the open-time zero runs the turnaround computation with a zero
divisor (totalized to the bare margin in this embedding) instead of
rejecting the state. -/
theorem c9_unguarded_zero_baudrate_witness :
    (dc_serial_write wenvW10 devHD0 4 false).2.2
      = (if elapsedUsec 0 1000 1000000 < 2000
         then Option.some ((2000 - elapsedUsec 0 1000 1000000 + 999) / 1000)
         else Option.none) :=
  c9_unguarded_zero_baudrate.2.2.2.2 wenvW10 devHD0 4 1000000 0 1000 10
    false (by decide) rfl rfl rfl rfl rfl
